import Mathlib

/-!
Shallow embedding of `src/main.rs` of img2kvm-rs: the format-dispatch
decompression subsystem (`run` and the five `decompress_*_file` functions),
together with the Rust standard library's `Path::extension` / `Path::file_stem`
splitting rules and a small association-list filesystem model.

External byte-stream decoders (bzip2, flate2, lzma_rust2, zip) are oracles:
each is a parameter mapping the opened file's bytes to a decode outcome, so the
control flow of the source is modelled exactly while the compression
algorithms themselves stay abstract.
-/

namespace Img2Kvm

/-- A canonicalized path: directory components plus an optional final file-name
component (`none` models the filesystem root, which has no `file_name`).
File names are lists of characters, matching Rust's per-character handling. -/
structure RPath where
  dir : List (List Char)
  fileComp : Option (List Char)
deriving DecidableEq, Repr

/-- Split a file name at its LAST dot: `none` when the name contains no dot,
otherwise `some (before, after)`.  Mirrors `rsplitn(2, '.')` from Rust std. -/
def lastDotSplit : List Char → Option (List Char × List Char)
  | [] => none
  | c :: cs =>
    match lastDotSplit cs with
    | some (b, a) => some (c :: b, a)
    | none => if c = '.' then some ([], cs) else none

/-- Rust std's `rsplit_file_at_dot` on a file name: `(before, after)` around the
final dot, where `".."` and names whose only dot is leading are kept whole. -/
def rsplitFileAtDot (f : List Char) : Option (List Char) × Option (List Char) :=
  if f = ['.', '.'] then (some f, none)
  else
    match lastDotSplit f with
    | none => (none, some f)
    | some (b, a) => if b = [] then (some f, none) else (some b, some a)

/-- Rust `Path::file_stem` on a file name: `before.or(after)`. -/
def fileStemName (f : List Char) : Option (List Char) :=
  ((rsplitFileAtDot f).1).or (rsplitFileAtDot f).2

/-- Rust `Path::extension` on a file name: `before.and(after)`. -/
def extensionName (f : List Char) : Option (List Char) :=
  match rsplitFileAtDot f with
  | (some _, some a) => some a
  | _ => none

/-- `Path::extension` of a whole path (`file_name().and_then(extension)`). -/
def extensionOfPath (p : RPath) : Option (List Char) :=
  p.fileComp.bind extensionName

/-- `Path::file_stem` of a whole path. -/
def fileStemOfPath (p : RPath) : Option (List Char) :=
  p.fileComp.bind fileStemName

/-- The filesystem: an association list from paths to file contents (bytes). -/
abbrev FS := List (RPath × List Nat)

/-- Look up a file's contents; `none` models `File::open` failing (not found). -/
def fsLookup : FS → RPath → Option (List Nat)
  | [], _ => none
  | (q, d) :: rest, p => if q = p then some d else fsLookup rest p

/-- Remove a file (used for `fs::remove_file` and to model truncation). -/
def fsRemove : FS → RPath → FS
  | [], _ => []
  | e :: rest, p => if e.1 = p then fsRemove rest p else e :: fsRemove rest p

/-- `File::create`: truncates/overwrites any existing file at the path. -/
def fsCreate (fs : FS) (p : RPath) (d : List Nat) : FS :=
  (p, d) :: fsRemove fs p

/-- The error taxonomy of the run, following the source's `anyhow` contexts. -/
inductive Err where
  | noExtension
  | unsupportedExtension (ext : String)
  | ioError (msg : String)
  | decodeError (msg : String)
  | pathError (msg : String)
  | externalError (msg : String)
deriving DecidableEq, Repr

/-- The spec's `UnsupportedFormat` kind covers both a missing and an
unrecognized extension. -/
def Err.isUnsupportedFormat : Err → Bool
  | .noExtension => true
  | .unsupportedExtension _ => true
  | _ => false

/-- Modelled from the spec: an `.xz` container stream as seen by lzma_rust2's
`XzReader` (the crate is an external dependency, not part of `src/`): a decoded
payload, whether the container itself parses, and whether its trailing
integrity checksum is valid. -/
structure XzStream where
  payload : List Nat
  wellFormed : Bool
  checksumValid : Bool
deriving DecidableEq, Repr

/-- Modelled from the spec: `XzReader::new(file, verifyCheck)` followed by
`read_to_end` — a malformed stream always fails; an invalid integrity checksum
fails exactly when verification was enabled at construction. -/
def xzReaderRead (verifyCheck : Bool) (s : XzStream) : Except String (List Nat) :=
  if s.wellFormed then
    if verifyCheck && !s.checksumValid then .error "stream integrity check failed"
    else .ok s.payload
  else .error "malformed xz stream"

/-- Modelled from the spec: a legacy `.lzma` stream: decoded payload, the
dictionary size its header declares, and whether the stream decodes cleanly. -/
structure LzmaStream where
  payload : List Nat
  dictSize : Nat
  wellFormed : Bool
deriving DecidableEq, Repr

/-- The state of a constructed `LzmaReader`: the memory ceiling and the
uncompressed-size hint it was built with, plus the underlying stream. -/
structure LzmaReaderState where
  memLimit : Nat
  sizeHint : Option Nat
  stream : LzmaStream
deriving DecidableEq, Repr

/-- Modelled from the spec: `LzmaReader::new_mem_limit(file, memLimit, hint)` —
construction fails when the stream's declared dictionary exceeds the ceiling. -/
def lzmaReaderNewMemLimit (file : LzmaStream) (memLimit : Nat)
    (sizeHint : Option Nat) : Except String LzmaReaderState :=
  if file.dictSize > memLimit then .error "LZMA dictionary size exceeds memory limit"
  else .ok ⟨memLimit, sizeHint, file⟩

/-- Modelled from the spec: draining a constructed `LzmaReader` to the end. -/
def lzmaReaderRead (r : LzmaReaderState) : Except String (List Nat) :=
  if r.stream.wellFormed then .ok r.stream.payload else .error "corrupt lzma stream"

/-- Modelled from the spec: one zip archive entry as handed out by
`ZipArchive::by_index`: a name, the chunks `io::copy` successively reads from
it, and — after those chunks — either end-of-entry (`none`) or a read error. -/
structure ZipEntry where
  entryName : List Char
  chunks : List (List Nat)
  readFail : Option String
deriving DecidableEq, Repr

/-- `decompress_bz2_file` (src/main.rs:126-147): open the source, drain the
(multi-stream) bzip2 decoder fully into a buffer, then create
`WORK_DIR.join(file_stem)` and write the buffer.  The decoder is the oracle
`bz2Decode`.  Returns the updated filesystem and the result. -/
def decompress_bz2_file (bz2Decode : List Nat → Except String (List Nat))
    (workDir : List (List Char)) (file_path : RPath) (fs : FS) :
    FS × Except Err RPath :=
  match fsLookup fs file_path with
  | none => (fs, .error (.ioError "Failed to open bz2 file"))
  | some data =>
    match bz2Decode data with
    | .error _ => (fs, .error (.decodeError "Failed to decompress bz2 file"))
    | .ok buffer =>
      match fileStemOfPath file_path with
      | none => (fs, .error (.pathError "Failed to get file stem from bz2 file"))
      | some file_stem =>
        let image_path : RPath := ⟨workDir, some file_stem⟩
        (fsCreate fs image_path buffer, .ok image_path)

/-- `decompress_gz_file` (src/main.rs:149-170): same shape as bz2 with the
flate2 `GzDecoder` as the oracle `gzDecode`. -/
def decompress_gz_file (gzDecode : List Nat → Except String (List Nat))
    (workDir : List (List Char)) (file_path : RPath) (fs : FS) :
    FS × Except Err RPath :=
  match fsLookup fs file_path with
  | none => (fs, .error (.ioError "Failed to open gz file"))
  | some data =>
    match gzDecode data with
    | .error _ => (fs, .error (.decodeError "Failed to decompress gz file"))
    | .ok buffer =>
      match fileStemOfPath file_path with
      | none => (fs, .error (.pathError "Failed to get file stem from gz file"))
      | some file_stem =>
        let image_path : RPath := ⟨workDir, some file_stem⟩
        (fsCreate fs image_path buffer, .ok image_path)

/-- `decompress_xz_file` (src/main.rs:172-193): constructs
`XzReader::new(file, true)` — the second argument enables integrity-check
verification — then drains it fully before creating the output file.
`parseXz` is the oracle viewing the file's bytes as an xz container. -/
def decompress_xz_file (parseXz : List Nat → XzStream)
    (workDir : List (List Char)) (file_path : RPath) (fs : FS) :
    FS × Except Err RPath :=
  match fsLookup fs file_path with
  | none => (fs, .error (.ioError "Failed to open xz file"))
  | some data =>
    match xzReaderRead true (parseXz data) with
    | .error _ => (fs, .error (.decodeError "Failed to decompress xz file"))
    | .ok buffer =>
      match fileStemOfPath file_path with
      | none => (fs, .error (.pathError "Failed to get file stem from xz file"))
      | some file_stem =>
        let image_path : RPath := ⟨workDir, some file_stem⟩
        (fsCreate fs image_path buffer, .ok image_path)

/-- `decompress_lzma_file` (src/main.rs:195-218): constructs
`LzmaReader::new_mem_limit(file, 64 * 1_024, None)` — construction failure is
fatal — then drains it fully before creating the output file. -/
def decompress_lzma_file (parseLzma : List Nat → LzmaStream)
    (workDir : List (List Char)) (file_path : RPath) (fs : FS) :
    FS × Except Err RPath :=
  match fsLookup fs file_path with
  | none => (fs, .error (.ioError "Failed to open lzma file"))
  | some data =>
    match lzmaReaderNewMemLimit (parseLzma data) (64 * 1024) none with
    | .error _ => (fs, .error (.decodeError "Failed to create LZMA reader"))
    | .ok reader =>
      match lzmaReaderRead reader with
      | .error _ => (fs, .error (.decodeError "Failed to decompress lzma file"))
      | .ok buffer =>
        match fileStemOfPath file_path with
        | none => (fs, .error (.pathError "Failed to get file stem from lzma file"))
        | some file_stem =>
          let image_path : RPath := ⟨workDir, some file_stem⟩
          (fsCreate fs image_path buffer, .ok image_path)

/-- `decompress_zip_file` (src/main.rs:220-242): parse the archive, reject a
zero-entry archive, take the entry at index 0, then `File::create` the output
and `io::copy` the entry into it — chunks already read are on disk when a
later read of the same entry fails. -/
def decompress_zip_file (parseZip : List Nat → Except String (List ZipEntry))
    (workDir : List (List Char)) (file_path : RPath) (fs : FS) :
    FS × Except Err RPath :=
  match fsLookup fs file_path with
  | none => (fs, .error (.ioError "Failed to open zip file"))
  | some data =>
    match parseZip data with
    | .error _ => (fs, .error (.decodeError "Failed to read zip archive"))
    | .ok entries =>
      match entries with
      | [] => (fs, .error (.decodeError "ZIP file is empty"))
      | entity :: _ =>
        match fileStemOfPath file_path with
        | none => (fs, .error (.pathError "Failed to get file stem from zip file"))
        | some file_stem =>
          let image_path : RPath := ⟨workDir, some file_stem⟩
          let fs1 := fsCreate fs image_path []
          let fs2 := fsCreate fs1 image_path entity.chunks.flatten
          match entity.readFail with
          | some _ => (fs2, .error (.decodeError "Failed to extract file from ZIP archive"))
          | none => (fs2, .ok image_path)

/-- Outcome of one external `Command::output()` invocation. -/
inductive ExtOutcome where
  | spawnFail (msg : String)
  | exited (success : Bool) (stdout : String) (stderr : String)
deriving DecidableEq, Repr

/-- Trace of external process invocations made by `run`. -/
inductive ExtCall where
  | qemuConvert (src : RPath) (dst : RPath)
  | qmImportdisk (vmId : Nat) (disk : RPath) (storage : String)
deriving DecidableEq, Repr

/-- The run's environment: the captured working directory (`WORK_DIR`), the
decoder oracles, the outcomes of the two external commands, the bytes qemu-img
writes into the qcow2 on success, and the CLI parameters. -/
structure Oracles where
  workDir : List (List Char)
  bz2Decode : List Nat → Except String (List Nat)
  gzDecode : List Nat → Except String (List Nat)
  parseXz : List Nat → XzStream
  parseLzma : List Nat → LzmaStream
  parseZip : List Nat → Except String (List ZipEntry)
  qemu : ExtOutcome
  qcowBytes : List Nat
  qm : ExtOutcome
  vmId : Nat
  storage : String

/-- Pair a decompressor's result with the `is_image_file` flag (`false` on
every decompression arm of the dispatch). -/
def tagRes (b : Bool) : FS × Except Err RPath → FS × Except Err (Bool × RPath)
  | (fs, .error e) => (fs, .error e)
  | (fs, .ok p) => (fs, .ok (b, p))

/-- The dispatch `match extension.as_str()` of `run` (src/main.rs:63-75):
selects the decompressor, passes raw `img`/`iso` paths through unchanged with
`is_image_file = true`, and rejects anything else. -/
def dispatch (o : Oracles) (image_path : RPath) (fs : FS) (ext : String) :
    FS × Except Err (Bool × RPath) :=
  if ext = "bz2" ∨ ext = "bzip2" then
    tagRes false (decompress_bz2_file o.bz2Decode o.workDir image_path fs)
  else if ext = "gz" then
    tagRes false (decompress_gz_file o.gzDecode o.workDir image_path fs)
  else if ext = "lzma" then
    tagRes false (decompress_lzma_file o.parseLzma o.workDir image_path fs)
  else if ext = "xz" then
    tagRes false (decompress_xz_file o.parseXz o.workDir image_path fs)
  else if ext = "zip" then
    tagRes false (decompress_zip_file o.parseZip o.workDir image_path fs)
  else if ext = "img" ∨ ext = "iso" then (fs, .ok (true, image_path))
  else (fs, .error (.unsupportedExtension ext))

/-- `WORK_DIR.join("img2kvm_temp.qcow2")` (src/main.rs:77). -/
def vmdiskName (workDir : List (List Char)) : RPath :=
  ⟨workDir, some "img2kvm_temp.qcow2".data⟩

/-- The tail of `run` after the dispatch (src/main.rs:77-123): invoke
`qemu-img convert` (which materializes the qcow2 on success), then
`qm importdisk`, then remove the temporary qcow2 and — when the input was not
a raw image — the decompressed file. -/
def afterDispatch (o : Oracles) (fs1 : FS) (is_image_file : Bool)
    (processed_image_path : RPath) : FS × List ExtCall × Except Err Unit :=
  let vmdisk := vmdiskName o.workDir
  let call1 := ExtCall.qemuConvert processed_image_path vmdisk
  match o.qemu with
  | .spawnFail _ => (fs1, [call1], .error (.ioError "Failed to execute qemu-img command"))
  | .exited false _ stderr =>
    (fs1, [call1], .error (.externalError ("qemu-img failed: " ++ stderr)))
  | .exited true _ _ =>
    let fs2 := fsCreate fs1 vmdisk o.qcowBytes
    let call2 := ExtCall.qmImportdisk o.vmId vmdisk o.storage
    match o.qm with
    | .spawnFail _ =>
      (fs2, [call1, call2], .error (.ioError "Failed to execute qm command"))
    | .exited false _ stderr =>
      (fs2, [call1, call2], .error (.externalError ("qm importdisk failed: " ++ stderr)))
    | .exited true _ _ =>
      let fs3 := fsRemove fs2 vmdisk
      if is_image_file then (fs3, [call1, call2], .ok ())
      else (fsRemove fs3 processed_image_path, [call1, call2], .ok ())

/-- `run` (src/main.rs:49-124) over an already-canonicalized path: extract and
lowercase the extension, dispatch on it, then `afterDispatch`. -/
def run (o : Oracles) (image_path : RPath) (fs : FS) :
    FS × List ExtCall × Except Err Unit :=
  match extensionOfPath image_path with
  | none => (fs, [], .error .noExtension)
  | some e =>
    match dispatch o image_path fs ⟨e.map Char.toLower⟩ with
    | (fs1, .error err) => (fs1, [], .error err)
    | (fs1, .ok (is_image_file, processed_image_path)) =>
      afterDispatch o fs1 is_image_file processed_image_path

/-- The spec's FormatTag enumeration (Format Selector table, spec §4.1). -/
inductive FormatTag where
  | Bzip2 | Gzip | Lzma | Xz | Zip | RawImage | RawIso | Unsupported
deriving DecidableEq, Repr

/-- The Format Selector table of the spec, as a function on the lowercased
extension; to be compared with the source's `dispatch`. -/
def classifySpec (ext : String) : FormatTag :=
  if ext = "bz2" ∨ ext = "bzip2" then .Bzip2
  else if ext = "gz" then .Gzip
  else if ext = "lzma" then .Lzma
  else if ext = "xz" then .Xz
  else if ext = "zip" then .Zip
  else if ext = "img" then .RawImage
  else if ext = "iso" then .RawIso
  else .Unsupported

/-- A concrete environment for evaluating the model on closed inputs: benign
decoders, both external commands succeeding. -/
def oracle0 : Oracles where
  workDir := []
  bz2Decode := fun d => .ok d
  gzDecode := fun d => .ok d
  parseXz := fun d => ⟨d, true, true⟩
  parseLzma := fun d => ⟨d, 0, true⟩
  parseZip := fun _ => .ok [⟨"a.bin".data, [[1], [2, 3]], none⟩, ⟨"b.bin".data, [[9]], none⟩]
  qemu := .exited true "" ""
  qcowBytes := [7, 7]
  qm := .exited true "" ""
  vmId := 100
  storage := "local-lvm"

/-! ### Shared lemmas: the filesystem model -/

theorem fsLookup_fsRemove_self (fs : FS) (p : RPath) :
    fsLookup (fsRemove fs p) p = none := by
  induction fs with
  | nil => rfl
  | cons e rest ih =>
    obtain ⟨q, d⟩ := e
    by_cases h : q = p
    · simpa [fsRemove, h] using ih
    · simpa [fsRemove, fsLookup, h] using ih

theorem fsLookup_fsRemove_ne (fs : FS) {p q : RPath} (h : q ≠ p) :
    fsLookup (fsRemove fs p) q = fsLookup fs q := by
  have hpq : p ≠ q := fun hc => h hc.symm
  induction fs with
  | nil => rfl
  | cons e rest ih =>
    obtain ⟨r, d⟩ := e
    by_cases hr : r = p
    · subst hr
      simp [fsRemove, fsLookup, hpq, ih]
    · by_cases hq : r = q <;> simp [fsRemove, fsLookup, hr, hq, h, ih]

theorem fsLookup_fsCreate_self (fs : FS) (p : RPath) (d : List Nat) :
    fsLookup (fsCreate fs p d) p = some d := by
  simp [fsCreate, fsLookup]

theorem fsLookup_fsCreate_ne (fs : FS) {p q : RPath} (d : List Nat) (h : q ≠ p) :
    fsLookup (fsCreate fs p d) q = fsLookup fs q := by
  have hpq : p ≠ q := fun hc => h hc.symm
  simp only [fsCreate, fsLookup, if_neg hpq]
  exact fsLookup_fsRemove_ne fs h

theorem fsRemove_fsRemove (fs : FS) (p : RPath) :
    fsRemove (fsRemove fs p) p = fsRemove fs p := by
  induction fs with
  | nil => rfl
  | cons e rest ih =>
    obtain ⟨q, d⟩ := e
    by_cases h : q = p
    · simpa [fsRemove, h] using ih
    · simpa [fsRemove, h] using ih

theorem fsCreate_fsCreate (fs : FS) (p : RPath) (a b : List Nat) :
    fsCreate (fsCreate fs p a) p b = fsCreate fs p b := by
  simp [fsCreate, fsRemove, fsRemove_fsRemove]

theorem fsRemove_fsCreate (fs : FS) (p : RPath) (d : List Nat) :
    fsRemove (fsCreate fs p d) p = fsRemove fs p := by
  simp [fsCreate, fsRemove, fsRemove_fsRemove]

/-! ### Shared lemmas: Rust path splitting -/

theorem rsplitFileAtDot_fst_ne_nil {f b a : List Char}
    (h : rsplitFileAtDot f = (some b, some a)) : b ≠ [] := by
  unfold rsplitFileAtDot at h
  split at h
  · simp at h
  · rcases hl : lastDotSplit f with _ | ⟨b', a'⟩ <;> rw [hl] at h
    · simp at h
    · by_cases hb : b' = []
      · simp [hb] at h
      · simp only [if_neg hb, Prod.mk.injEq, Option.some.injEq] at h
        obtain ⟨rfl, rfl⟩ := h
        exact hb

theorem fileStemName_of_extensionName {f e : List Char}
    (h : extensionName f = some e) : ∃ s, fileStemName f = some s ∧ s ≠ [] := by
  unfold extensionName at h
  cases hr : rsplitFileAtDot f with
  | mk b a =>
    rw [hr] at h
    cases b with
    | none => cases a <;> simp at h
    | some b' =>
      cases a with
      | none => simp at h
      | some a' =>
        refine ⟨b', ?_, rsplitFileAtDot_fst_ne_nil hr⟩
        unfold fileStemName
        rw [hr]
        rfl

theorem fileStemOfPath_of_extensionOfPath {p : RPath} {e : List Char}
    (h : extensionOfPath p = some e) : ∃ s, fileStemOfPath p = some s ∧ s ≠ [] := by
  unfold extensionOfPath at h
  unfold fileStemOfPath
  cases hf : p.fileComp with
  | none => rw [hf] at h; simp at h
  | some f =>
    rw [hf] at h
    simp only [Option.some_bind] at h ⊢
    exact fileStemName_of_extensionName h

/-! ### Shared lemmas: reducing `run` -/

theorem tagRes_snd_error {b : Bool} {r : FS × Except Err RPath} {e : Err} :
    (tagRes b r).2 = .error e ↔ r.2 = .error e := by
  obtain ⟨fs, res⟩ := r
  cases res <;> simp [tagRes]

theorem run_of_extension_none {o : Oracles} {p : RPath} {fs : FS}
    (he : extensionOfPath p = none) : run o p fs = (fs, [], .error .noExtension) := by
  unfold run
  rw [he]

theorem run_of_dispatch_error {o : Oracles} {p : RPath} {fs fs1 : FS}
    {e : List Char} {err : Err}
    (he : extensionOfPath p = some e)
    (hd : dispatch o p fs ⟨e.map Char.toLower⟩ = (fs1, .error err)) :
    run o p fs = (fs1, [], .error err) := by
  simp only [run, he, hd]

theorem run_of_dispatch_ok {o : Oracles} {p pp : RPath} {fs fs1 : FS}
    {e : List Char} {b : Bool}
    (he : extensionOfPath p = some e)
    (hd : dispatch o p fs ⟨e.map Char.toLower⟩ = (fs1, .ok (b, pp))) :
    run o p fs = afterDispatch o fs1 b pp := by
  simp only [run, he, hd]

/-! ### Shared lemmas: the Format Selector table against the dispatch -/

theorem classifySpec_bzip2_iff (s : String) :
    classifySpec s = .Bzip2 ↔ (s = "bz2" ∨ s = "bzip2") := by
  constructor
  · intro h
    by_contra hne
    unfold classifySpec at h
    split_ifs at h <;> simp_all
  · rintro (rfl | rfl) <;> rfl

theorem classifySpec_gzip_iff (s : String) : classifySpec s = .Gzip ↔ s = "gz" := by
  constructor
  · intro h
    by_contra hne
    unfold classifySpec at h
    split_ifs at h <;> simp_all
  · rintro rfl; rfl

theorem classifySpec_lzma_iff (s : String) : classifySpec s = .Lzma ↔ s = "lzma" := by
  constructor
  · intro h
    by_contra hne
    unfold classifySpec at h
    split_ifs at h <;> simp_all
  · rintro rfl; rfl

theorem classifySpec_xz_iff (s : String) : classifySpec s = .Xz ↔ s = "xz" := by
  constructor
  · intro h
    by_contra hne
    unfold classifySpec at h
    split_ifs at h <;> simp_all
  · rintro rfl; rfl

theorem classifySpec_zip_iff (s : String) : classifySpec s = .Zip ↔ s = "zip" := by
  constructor
  · intro h
    by_contra hne
    unfold classifySpec at h
    split_ifs at h <;> simp_all
  · rintro rfl; rfl

theorem classifySpec_rawimage_iff (s : String) :
    classifySpec s = .RawImage ↔ s = "img" := by
  constructor
  · intro h
    by_contra hne
    unfold classifySpec at h
    split_ifs at h <;> simp_all
  · rintro rfl; rfl

theorem classifySpec_rawiso_iff (s : String) : classifySpec s = .RawIso ↔ s = "iso" := by
  constructor
  · intro h
    by_contra hne
    unfold classifySpec at h
    split_ifs at h <;> simp_all
  · rintro rfl; rfl

theorem dispatch_of_bzip2 (o : Oracles) (p : RPath) (fs : FS) (ext : String)
    (h : classifySpec ext = .Bzip2) :
    dispatch o p fs ext = tagRes false (decompress_bz2_file o.bz2Decode o.workDir p fs) := by
  rcases (classifySpec_bzip2_iff ext).mp h with rfl | rfl <;> rfl

theorem dispatch_of_gzip (o : Oracles) (p : RPath) (fs : FS) (ext : String)
    (h : classifySpec ext = .Gzip) :
    dispatch o p fs ext = tagRes false (decompress_gz_file o.gzDecode o.workDir p fs) := by
  obtain rfl := (classifySpec_gzip_iff ext).mp h
  rfl

theorem dispatch_of_lzma (o : Oracles) (p : RPath) (fs : FS) (ext : String)
    (h : classifySpec ext = .Lzma) :
    dispatch o p fs ext = tagRes false (decompress_lzma_file o.parseLzma o.workDir p fs) := by
  obtain rfl := (classifySpec_lzma_iff ext).mp h
  rfl

theorem dispatch_of_xz (o : Oracles) (p : RPath) (fs : FS) (ext : String)
    (h : classifySpec ext = .Xz) :
    dispatch o p fs ext = tagRes false (decompress_xz_file o.parseXz o.workDir p fs) := by
  obtain rfl := (classifySpec_xz_iff ext).mp h
  rfl

theorem dispatch_of_zip (o : Oracles) (p : RPath) (fs : FS) (ext : String)
    (h : classifySpec ext = .Zip) :
    dispatch o p fs ext = tagRes false (decompress_zip_file o.parseZip o.workDir p fs) := by
  obtain rfl := (classifySpec_zip_iff ext).mp h
  rfl

theorem dispatch_of_raw (o : Oracles) (p : RPath) (fs : FS) (ext : String)
    (h : classifySpec ext = .RawImage ∨ classifySpec ext = .RawIso) :
    dispatch o p fs ext = (fs, .ok (true, p)) := by
  rcases h with h | h
  · obtain rfl := (classifySpec_rawimage_iff ext).mp h
    rfl
  · obtain rfl := (classifySpec_rawiso_iff ext).mp h
    rfl

theorem dispatch_of_unsupported (o : Oracles) (p : RPath) (fs : FS) (ext : String)
    (h : classifySpec ext = .Unsupported) :
    dispatch o p fs ext = (fs, .error (.unsupportedExtension ext)) := by
  unfold classifySpec at h
  split_ifs at h with h1 h2 h3 h4 h5 h6 h7 <;> try simp at h
  unfold dispatch
  rw [if_neg h1, if_neg h2, if_neg h3, if_neg h4, if_neg h5,
    if_neg (not_or.mpr ⟨h6, h7⟩)]

/-- C1: the Format Selector lowercases the final path-extension component and
classifies it exactly per the table (bz2/bzip2 → Bzip2, gz → Gzip,
lzma → Lzma, xz → Xz, zip → Zip, img → RawImage, iso → RawIso); a missing or
unrecognized extension fails with an UnsupportedFormat-kind error, fatally,
with the filesystem untouched and no external process invoked; and the
dispatch of `run` follows the table's tags exactly. -/
theorem c1_format_selector :
    (∀ (o : Oracles) (p : RPath) (fs : FS), extensionOfPath p = none →
      run o p fs = (fs, [], .error .noExtension)) ∧
    (∀ (o : Oracles) (p : RPath) (fs : FS) (e : List Char),
      extensionOfPath p = some e →
      classifySpec ⟨e.map Char.toLower⟩ = .Unsupported →
      run o p fs = (fs, [], .error (.unsupportedExtension ⟨e.map Char.toLower⟩))) ∧
    Err.noExtension.isUnsupportedFormat = true ∧
    (∀ s, (Err.unsupportedExtension s).isUnsupportedFormat = true) ∧
    (∀ s, classifySpec s = .Bzip2 ↔ (s = "bz2" ∨ s = "bzip2")) ∧
    (∀ s, classifySpec s = .Gzip ↔ s = "gz") ∧
    (∀ s, classifySpec s = .Lzma ↔ s = "lzma") ∧
    (∀ s, classifySpec s = .Xz ↔ s = "xz") ∧
    (∀ s, classifySpec s = .Zip ↔ s = "zip") ∧
    (∀ s, classifySpec s = .RawImage ↔ s = "img") ∧
    (∀ s, classifySpec s = .RawIso ↔ s = "iso") ∧
    (∀ o p fs ext, classifySpec ext = .Bzip2 →
      dispatch o p fs ext = tagRes false (decompress_bz2_file o.bz2Decode o.workDir p fs)) ∧
    (∀ o p fs ext, classifySpec ext = .Gzip →
      dispatch o p fs ext = tagRes false (decompress_gz_file o.gzDecode o.workDir p fs)) ∧
    (∀ o p fs ext, classifySpec ext = .Lzma →
      dispatch o p fs ext = tagRes false (decompress_lzma_file o.parseLzma o.workDir p fs)) ∧
    (∀ o p fs ext, classifySpec ext = .Xz →
      dispatch o p fs ext = tagRes false (decompress_xz_file o.parseXz o.workDir p fs)) ∧
    (∀ o p fs ext, classifySpec ext = .Zip →
      dispatch o p fs ext = tagRes false (decompress_zip_file o.parseZip o.workDir p fs)) ∧
    (∀ o p fs ext, classifySpec ext = .RawImage ∨ classifySpec ext = .RawIso →
      dispatch o p fs ext = (fs, .ok (true, p))) ∧
    (∀ o p fs ext, classifySpec ext = .Unsupported →
      dispatch o p fs ext = (fs, .error (.unsupportedExtension ext))) := by
  refine ⟨?_, ?_, rfl, fun _ => rfl, classifySpec_bzip2_iff, classifySpec_gzip_iff,
    classifySpec_lzma_iff, classifySpec_xz_iff, classifySpec_zip_iff,
    classifySpec_rawimage_iff, classifySpec_rawiso_iff, dispatch_of_bzip2,
    dispatch_of_gzip, dispatch_of_lzma, dispatch_of_xz, dispatch_of_zip,
    dispatch_of_raw, dispatch_of_unsupported⟩
  · intro o p fs he
    exact run_of_extension_none he
  · intro o p fs e he hcl
    exact run_of_dispatch_error he (dispatch_of_unsupported o p fs _ hcl)

/-- Witness for C1: a `.rar` input aborts with the UnsupportedFormat-kind
error, filesystem untouched, no external process invoked. -/
theorem c1_format_selector_witness :
    run oracle0 ⟨[], some "disk.rar".data⟩ [] =
      ([], [], .error (.unsupportedExtension ⟨"rar".data.map Char.toLower⟩)) :=
  c1_format_selector.2.1 oracle0 ⟨[], some "disk.rar".data⟩ [] "rar".data
    (by decide) (by decide)

/-! ### Shared lemmas: decompressor behavior on failure and success -/

theorem decompress_bz2_shape (dec : List Nat → Except String (List Nat))
    (wd : List (List Char)) (p : RPath) (fs : FS) :
    (∃ err, decompress_bz2_file dec wd p fs = (fs, .error err)) ∨
    (∃ stem buffer, fileStemOfPath p = some stem ∧
      decompress_bz2_file dec wd p fs =
        (fsCreate fs ⟨wd, some stem⟩ buffer, .ok ⟨wd, some stem⟩)) := by
  unfold decompress_bz2_file
  split
  · exact Or.inl ⟨_, rfl⟩
  · split
    · exact Or.inl ⟨_, rfl⟩
    · split
      · exact Or.inl ⟨_, rfl⟩
      · rename_i stem heq
        exact Or.inr ⟨stem, _, heq, rfl⟩

theorem decompress_gz_shape (dec : List Nat → Except String (List Nat))
    (wd : List (List Char)) (p : RPath) (fs : FS) :
    (∃ err, decompress_gz_file dec wd p fs = (fs, .error err)) ∨
    (∃ stem buffer, fileStemOfPath p = some stem ∧
      decompress_gz_file dec wd p fs =
        (fsCreate fs ⟨wd, some stem⟩ buffer, .ok ⟨wd, some stem⟩)) := by
  unfold decompress_gz_file
  split
  · exact Or.inl ⟨_, rfl⟩
  · split
    · exact Or.inl ⟨_, rfl⟩
    · split
      · exact Or.inl ⟨_, rfl⟩
      · rename_i stem heq
        exact Or.inr ⟨stem, _, heq, rfl⟩

theorem decompress_xz_shape (parseXz : List Nat → XzStream)
    (wd : List (List Char)) (p : RPath) (fs : FS) :
    (∃ err, decompress_xz_file parseXz wd p fs = (fs, .error err)) ∨
    (∃ stem buffer, fileStemOfPath p = some stem ∧
      decompress_xz_file parseXz wd p fs =
        (fsCreate fs ⟨wd, some stem⟩ buffer, .ok ⟨wd, some stem⟩)) := by
  unfold decompress_xz_file
  split
  · exact Or.inl ⟨_, rfl⟩
  · split
    · exact Or.inl ⟨_, rfl⟩
    · split
      · exact Or.inl ⟨_, rfl⟩
      · rename_i stem heq
        exact Or.inr ⟨stem, _, heq, rfl⟩

theorem decompress_lzma_shape (parseLzma : List Nat → LzmaStream)
    (wd : List (List Char)) (p : RPath) (fs : FS) :
    (∃ err, decompress_lzma_file parseLzma wd p fs = (fs, .error err)) ∨
    (∃ stem buffer, fileStemOfPath p = some stem ∧
      decompress_lzma_file parseLzma wd p fs =
        (fsCreate fs ⟨wd, some stem⟩ buffer, .ok ⟨wd, some stem⟩)) := by
  unfold decompress_lzma_file
  split
  · exact Or.inl ⟨_, rfl⟩
  · split
    · exact Or.inl ⟨_, rfl⟩
    · split
      · exact Or.inl ⟨_, rfl⟩
      · split
        · exact Or.inl ⟨_, rfl⟩
        · rename_i stem heq
          exact Or.inr ⟨stem, _, heq, rfl⟩

theorem decompress_bz2_error_unchanged (dec : List Nat → Except String (List Nat))
    (wd : List (List Char)) (p : RPath) (fs : FS) (err : Err)
    (h : (decompress_bz2_file dec wd p fs).2 = .error err) :
    (decompress_bz2_file dec wd p fs).1 = fs := by
  rcases decompress_bz2_shape dec wd p fs with ⟨e, he⟩ | ⟨stem, buf, _, hok⟩
  · rw [he]
  · rw [hok] at h
    simp at h

theorem decompress_gz_error_unchanged (dec : List Nat → Except String (List Nat))
    (wd : List (List Char)) (p : RPath) (fs : FS) (err : Err)
    (h : (decompress_gz_file dec wd p fs).2 = .error err) :
    (decompress_gz_file dec wd p fs).1 = fs := by
  rcases decompress_gz_shape dec wd p fs with ⟨e, he⟩ | ⟨stem, buf, _, hok⟩
  · rw [he]
  · rw [hok] at h
    simp at h

theorem decompress_xz_error_unchanged (parseXz : List Nat → XzStream)
    (wd : List (List Char)) (p : RPath) (fs : FS) (err : Err)
    (h : (decompress_xz_file parseXz wd p fs).2 = .error err) :
    (decompress_xz_file parseXz wd p fs).1 = fs := by
  rcases decompress_xz_shape parseXz wd p fs with ⟨e, he⟩ | ⟨stem, buf, _, hok⟩
  · rw [he]
  · rw [hok] at h
    simp at h

theorem decompress_lzma_error_unchanged (parseLzma : List Nat → LzmaStream)
    (wd : List (List Char)) (p : RPath) (fs : FS) (err : Err)
    (h : (decompress_lzma_file parseLzma wd p fs).2 = .error err) :
    (decompress_lzma_file parseLzma wd p fs).1 = fs := by
  rcases decompress_lzma_shape parseLzma wd p fs with ⟨e, he⟩ | ⟨stem, buf, _, hok⟩
  · rw [he]
  · rw [hok] at h
    simp at h

theorem decompress_zip_readFail (pz : List Nat → Except String (List ZipEntry))
    (wd : List (List Char)) (p : RPath) (fs : FS) (data : List Nat)
    (entity : ZipEntry) (rest : List ZipEntry) (stem : List Char) (msg : String)
    (hopen : fsLookup fs p = some data)
    (hparse : pz data = .ok (entity :: rest))
    (hstem : fileStemOfPath p = some stem)
    (hfail : entity.readFail = some msg) :
    decompress_zip_file pz wd p fs =
      (fsCreate fs ⟨wd, some stem⟩ entity.chunks.flatten,
       .error (.decodeError "Failed to extract file from ZIP archive")) := by
  unfold decompress_zip_file
  simp only [hopen, hparse, hstem, hfail]
  simp [fsCreate_fsCreate]

theorem decompress_zip_first_entry (pz : List Nat → Except String (List ZipEntry))
    (wd : List (List Char)) (p : RPath) (fs : FS) (data : List Nat)
    (entity : ZipEntry) (rest : List ZipEntry) (stem : List Char)
    (hopen : fsLookup fs p = some data)
    (hparse : pz data = .ok (entity :: rest))
    (hstem : fileStemOfPath p = some stem)
    (hok : entity.readFail = none) :
    decompress_zip_file pz wd p fs =
      (fsCreate fs ⟨wd, some stem⟩ entity.chunks.flatten, .ok ⟨wd, some stem⟩) := by
  unfold decompress_zip_file
  simp only [hopen, hparse, hstem, hok]
  simp [fsCreate_fsCreate]

/-- C2 counterexample: the claim says every compressed format — zip included —
buffers the fully decoded stream in memory before creating the output file, so
a partway decode failure leaves no output file at all.  False for zip: with an
archive whose only entry yields chunks `[1]` and `[2]` and then fails, the
extraction errors yet the output file `a` exists with partial content `[1,2]`. -/
theorem c2_counterexample :
    (decompress_zip_file
        (fun _ => .ok [⟨"a.bin".data, [[1], [2]], some "truncated"⟩]) []
        ⟨[], some "a.zip".data⟩ [(⟨[], some "a.zip".data⟩, [0])]).2 =
      .error (.decodeError "Failed to extract file from ZIP archive") ∧
    fsLookup (decompress_zip_file
        (fun _ => .ok [⟨"a.bin".data, [[1], [2]], some "truncated"⟩]) []
        ⟨[], some "a.zip".data⟩ [(⟨[], some "a.zip".data⟩, [0])]).1
      ⟨[], some "a".data⟩ = some [1, 2] := by
  constructor <;> rfl

/-- C2 (amended): bz2/bzip2, gz, lzma and xz read the fully decoded stream
into an in-memory buffer before creating the output file, so any failure
leaves the filesystem unchanged (no output file at all); zip instead creates
the output file first and streams entry 0 into it via `io::copy`, so a partway
entry-read failure aborts with a descriptive error but leaves a partial
output file on disk. -/
theorem c2_buffer_then_write :
    (∀ dec wd p fs err, (decompress_bz2_file dec wd p fs).2 = .error err →
      (decompress_bz2_file dec wd p fs).1 = fs) ∧
    (∀ dec wd p fs err, (decompress_gz_file dec wd p fs).2 = .error err →
      (decompress_gz_file dec wd p fs).1 = fs) ∧
    (∀ px wd p fs err, (decompress_xz_file px wd p fs).2 = .error err →
      (decompress_xz_file px wd p fs).1 = fs) ∧
    (∀ pl wd p fs err, (decompress_lzma_file pl wd p fs).2 = .error err →
      (decompress_lzma_file pl wd p fs).1 = fs) ∧
    (∀ pz wd p fs data entity rest stem msg,
      fsLookup fs p = some data → pz data = .ok (entity :: rest) →
      fileStemOfPath p = some stem → entity.readFail = some msg →
      decompress_zip_file pz wd p fs =
        (fsCreate fs ⟨wd, some stem⟩ entity.chunks.flatten,
         .error (.decodeError "Failed to extract file from ZIP archive")) ∧
      fsLookup (decompress_zip_file pz wd p fs).1 ⟨wd, some stem⟩ =
        some entity.chunks.flatten) := by
  refine ⟨decompress_bz2_error_unchanged, decompress_gz_error_unchanged,
    decompress_xz_error_unchanged, decompress_lzma_error_unchanged, ?_⟩
  intro pz wd p fs data entity rest stem msg hopen hparse hstem hfail
  have h := decompress_zip_readFail pz wd p fs data entity rest stem msg
    hopen hparse hstem hfail
  refine ⟨h, ?_⟩
  rw [h]
  exact fsLookup_fsCreate_self _ _ _

/-- Witness for C2 (amended): a failing gz decode leaves the one-file
filesystem exactly as it was. -/
theorem c2_buffer_then_write_witness :
    (decompress_gz_file (fun _ => .error "corrupt") []
        ⟨[], some "disk.img.gz".data⟩ [(⟨[], some "disk.img.gz".data⟩, [0])]).1 =
      [(⟨[], some "disk.img.gz".data⟩, [0])] :=
  c2_buffer_then_write.2.1 (fun _ => .error "corrupt") [] ⟨[], some "disk.img.gz".data⟩
    [(⟨[], some "disk.img.gz".data⟩, [0])] (.decodeError "Failed to decompress gz file")
    rfl

/-- On success, the zip extractor's output path is the working directory
joined with the archive's stem. -/
theorem decompress_zip_ok_shape (pz : List Nat → Except String (List ZipEntry))
    (wd : List (List Char)) (p : RPath) (fs fs' : FS) (out : RPath)
    (h : decompress_zip_file pz wd p fs = (fs', .ok out)) :
    ∃ stem, fileStemOfPath p = some stem ∧ out = ⟨wd, some stem⟩ := by
  unfold decompress_zip_file at h
  split at h
  · simp at h
  · split at h
    · simp at h
    · split at h
      · simp at h
      · split at h
        · simp at h
        · rename_i stem heq
          split at h
          · simp at h
          · simp only [Prod.mk.injEq, Except.ok.injEq] at h
            exact ⟨stem, heq, h.2.symm⟩

/-- C3: the Output Namer is deterministic: every decompressor that succeeds
returns the working directory joined with the source filename's stem (the
filename with exactly its final extension removed), so the output lands in the
working directory, not alongside the source; `foo.img.gz` yields stem
`foo.img` and `foo.tar.gz` yields stem `foo.tar`. -/
theorem c3_output_namer :
    (∀ dec wd p fs fs' out, decompress_bz2_file dec wd p fs = (fs', .ok out) →
      ∃ stem, fileStemOfPath p = some stem ∧ out = ⟨wd, some stem⟩) ∧
    (∀ dec wd p fs fs' out, decompress_gz_file dec wd p fs = (fs', .ok out) →
      ∃ stem, fileStemOfPath p = some stem ∧ out = ⟨wd, some stem⟩) ∧
    (∀ px wd p fs fs' out, decompress_xz_file px wd p fs = (fs', .ok out) →
      ∃ stem, fileStemOfPath p = some stem ∧ out = ⟨wd, some stem⟩) ∧
    (∀ pl wd p fs fs' out, decompress_lzma_file pl wd p fs = (fs', .ok out) →
      ∃ stem, fileStemOfPath p = some stem ∧ out = ⟨wd, some stem⟩) ∧
    (∀ pz wd p fs fs' out, decompress_zip_file pz wd p fs = (fs', .ok out) →
      ∃ stem, fileStemOfPath p = some stem ∧ out = ⟨wd, some stem⟩) ∧
    fileStemName "foo.img.gz".data = some "foo.img".data ∧
    fileStemName "foo.tar.gz".data = some "foo.tar".data := by
  refine ⟨?_, ?_, ?_, ?_, ?_, by decide, by decide⟩
  · intro dec wd p fs fs' out h
    rcases decompress_bz2_shape dec wd p fs with ⟨e, he⟩ | ⟨stem, buf, hstem, hok⟩
    · rw [he] at h
      simp at h
    · rw [hok] at h
      simp only [Prod.mk.injEq, Except.ok.injEq] at h
      exact ⟨stem, hstem, h.2.symm⟩
  · intro dec wd p fs fs' out h
    rcases decompress_gz_shape dec wd p fs with ⟨e, he⟩ | ⟨stem, buf, hstem, hok⟩
    · rw [he] at h
      simp at h
    · rw [hok] at h
      simp only [Prod.mk.injEq, Except.ok.injEq] at h
      exact ⟨stem, hstem, h.2.symm⟩
  · intro px wd p fs fs' out h
    rcases decompress_xz_shape px wd p fs with ⟨e, he⟩ | ⟨stem, buf, hstem, hok⟩
    · rw [he] at h
      simp at h
    · rw [hok] at h
      simp only [Prod.mk.injEq, Except.ok.injEq] at h
      exact ⟨stem, hstem, h.2.symm⟩
  · intro pl wd p fs fs' out h
    rcases decompress_lzma_shape pl wd p fs with ⟨e, he⟩ | ⟨stem, buf, hstem, hok⟩
    · rw [he] at h
      simp at h
    · rw [hok] at h
      simp only [Prod.mk.injEq, Except.ok.injEq] at h
      exact ⟨stem, hstem, h.2.symm⟩
  · exact fun pz wd p fs fs' out h => decompress_zip_ok_shape pz wd p fs fs' out h

/-- Witness for C3: a successful gz decompression of `foo.tar.gz` names its
output by the stem `foo.tar` in the (empty) working directory. -/
theorem c3_output_namer_witness :
    ∃ stem, fileStemOfPath ⟨[], some "foo.tar.gz".data⟩ = some stem ∧
      (⟨[], some "foo.tar".data⟩ : RPath) = ⟨[], some stem⟩ :=
  c3_output_namer.2.1 (fun d => .ok d) [] ⟨[], some "foo.tar.gz".data⟩
    [(⟨[], some "foo.tar.gz".data⟩, [5])]
    [(⟨[], some "foo.tar".data⟩, [5]), (⟨[], some "foo.tar.gz".data⟩, [5])]
    ⟨[], some "foo.tar".data⟩ rfl

/-- C5: zip decompression extracts exactly the entry at archive index 0 —
the conclusion is independent of the remaining entries `rest` — and writes its
extracted bytes to the working-directory file named by the archive's stem. -/
theorem c5_zip_only_first_entry :
    ∀ pz wd p fs data entity rest stem,
      fsLookup fs p = some data → pz data = .ok (entity :: rest) →
      fileStemOfPath p = some stem → entity.readFail = none →
      decompress_zip_file pz wd p fs =
        (fsCreate fs ⟨wd, some stem⟩ entity.chunks.flatten, .ok ⟨wd, some stem⟩) ∧
      fsLookup (decompress_zip_file pz wd p fs).1 ⟨wd, some stem⟩ =
        some entity.chunks.flatten := by
  intro pz wd p fs data entity rest stem hopen hparse hstem hok
  have h := decompress_zip_first_entry pz wd p fs data entity rest stem
    hopen hparse hstem hok
  refine ⟨h, ?_⟩
  rw [h]
  exact fsLookup_fsCreate_self _ _ _

/-- Witness for C5 (spec scenario 3): `archive.zip` with two entries, the
first named `a.bin` containing `[1,2,3]`, produces working-directory file
`archive` containing `[1,2,3]`, ignoring the second entry. -/
theorem c5_zip_only_first_entry_witness :
    decompress_zip_file
        (fun _ => .ok [⟨"a.bin".data, [[1, 2, 3]], none⟩, ⟨"b.bin".data, [[9]], none⟩])
        [] ⟨[], some "archive.zip".data⟩ [(⟨[], some "archive.zip".data⟩, [0])] =
      (fsCreate [(⟨[], some "archive.zip".data⟩, [0])] ⟨[], some "archive".data⟩ [1, 2, 3],
       .ok ⟨[], some "archive".data⟩) ∧
    fsLookup (decompress_zip_file
        (fun _ => .ok [⟨"a.bin".data, [[1, 2, 3]], none⟩, ⟨"b.bin".data, [[9]], none⟩])
        [] ⟨[], some "archive.zip".data⟩ [(⟨[], some "archive.zip".data⟩, [0])]).1
      ⟨[], some "archive".data⟩ = some [1, 2, 3] :=
  c5_zip_only_first_entry
    (fun _ => .ok [⟨"a.bin".data, [[1, 2, 3]], none⟩, ⟨"b.bin".data, [[9]], none⟩])
    [] ⟨[], some "archive.zip".data⟩ [(⟨[], some "archive.zip".data⟩, [0])]
    [0] ⟨"a.bin".data, [[1, 2, 3]], none⟩ [⟨"b.bin".data, [[9]], none⟩]
    "archive".data rfl rfl rfl rfl

/-- C9: a zero-entry zip archive is rejected with a descriptive error before
the output file is opened: the filesystem is returned unchanged. -/
theorem c9_empty_zip_rejected :
    ∀ pz wd p fs data, fsLookup fs p = some data → pz data = .ok [] →
      decompress_zip_file pz wd p fs =
        (fs, .error (.decodeError "ZIP file is empty")) := by
  intro pz wd p fs data hopen hparse
  unfold decompress_zip_file
  simp only [hopen, hparse]

/-- Witness for C9: a concrete empty archive fails with the ZIP-file-is-empty
error and creates nothing. -/
theorem c9_empty_zip_rejected_witness :
    decompress_zip_file (fun _ => .ok []) [] ⟨[], some "a.zip".data⟩
        [(⟨[], some "a.zip".data⟩, [0])] =
      ([(⟨[], some "a.zip".data⟩, [0])], .error (.decodeError "ZIP file is empty")) :=
  c9_empty_zip_rejected (fun _ => .ok []) [] ⟨[], some "a.zip".data⟩
    [(⟨[], some "a.zip".data⟩, [0])] [0] rfl rfl

/-- Whatever happens downstream, the first external call (if any is recorded)
is `qemu-img convert` on the processed path. -/
theorem afterDispatch_trace (o : Oracles) (fs1 : FS) (b : Bool) (pp : RPath) :
    ∃ rest, (afterDispatch o fs1 b pp).2.1 =
      ExtCall.qemuConvert pp (vmdiskName o.workDir) :: rest := by
  unfold afterDispatch
  cases o.qemu with
  | spawnFail msg => exact ⟨[], rfl⟩
  | exited s so se =>
    cases s
    · exact ⟨[], rfl⟩
    · cases o.qm with
      | spawnFail msg => exact ⟨[_], rfl⟩
      | exited s2 a bb =>
        cases s2
        · exact ⟨[_], rfl⟩
        · cases b
          · exact ⟨[_], rfl⟩
          · exact ⟨[_], rfl⟩

/-- C6: for an input whose lowercased extension classifies as `img` or `iso`,
no decompression occurs: the dispatch returns the canonical input path
unchanged (with `is_image_file = true`) and the filesystem exactly as it was,
and the path handed to the external conversion step is the input path. -/
theorem c6_raw_passthrough :
    ∀ o p fs e, extensionOfPath p = some e →
      (classifySpec ⟨e.map Char.toLower⟩ = .RawImage ∨
        classifySpec ⟨e.map Char.toLower⟩ = .RawIso) →
      dispatch o p fs ⟨e.map Char.toLower⟩ = (fs, .ok (true, p)) ∧
      ∃ rest, (run o p fs).2.1 =
        ExtCall.qemuConvert p (vmdiskName o.workDir) :: rest := by
  intro o p fs e he hraw
  have hd := dispatch_of_raw o p fs ⟨e.map Char.toLower⟩ hraw
  refine ⟨hd, ?_⟩
  rw [run_of_dispatch_ok he hd]
  exact afterDispatch_trace o fs true p

/-- Witness for C6 (spec scenario 1): `disk.img` passes through unchanged and
is itself the source argument of the conversion call. -/
theorem c6_raw_passthrough_witness :
    dispatch oracle0 ⟨[], some "disk.img".data⟩ [(⟨[], some "disk.img".data⟩, [1])]
        ⟨"img".data.map Char.toLower⟩ =
      ([(⟨[], some "disk.img".data⟩, [1])], .ok (true, ⟨[], some "disk.img".data⟩)) ∧
    ∃ rest, (run oracle0 ⟨[], some "disk.img".data⟩
        [(⟨[], some "disk.img".data⟩, [1])]).2.1 =
      ExtCall.qemuConvert ⟨[], some "disk.img".data⟩ (vmdiskName oracle0.workDir) :: rest :=
  c6_raw_passthrough oracle0 ⟨[], some "disk.img".data⟩
    [(⟨[], some "disk.img".data⟩, [1])] "img".data rfl (Or.inl rfl)

/-- C7: the xz decompressor constructs its reader with integrity-check
verification enabled (`XzReader::new(file, true)`), so a stream with an
invalid checksum always fails to decode — whereas with verification disabled a
well-formed stream would decode — and such an input aborts the run with a
decode error, the filesystem untouched and no external process invoked. -/
theorem c7_xz_checksum_verification :
    (∀ s : XzStream, s.checksumValid = false →
      ∃ msg, xzReaderRead true s = .error msg) ∧
    (∀ s : XzStream, s.wellFormed = true → xzReaderRead false s = .ok s.payload) ∧
    (∀ o p fs e data, extensionOfPath p = some e →
      (⟨e.map Char.toLower⟩ : String) = "xz" →
      fsLookup fs p = some data →
      (o.parseXz data).checksumValid = false →
      run o p fs = (fs, [], .error (.decodeError "Failed to decompress xz file"))) := by
  refine ⟨?_, ?_, ?_⟩
  · intro s hck
    unfold xzReaderRead
    cases hw : s.wellFormed <;> simp [hw, hck]
  · intro s hw
    unfold xzReaderRead
    simp [hw]
  · intro o p fs e data he hx hopen hck
    apply run_of_dispatch_error he
    rw [hx]
    have hstep : dispatch o p fs "xz" =
        tagRes false (decompress_xz_file o.parseXz o.workDir p fs) := rfl
    rw [hstep]
    have hx2 : xzReaderRead true (o.parseXz data) =
        .error (if (o.parseXz data).wellFormed then "stream integrity check failed"
                else "malformed xz stream") := by
      unfold xzReaderRead
      cases hw : (o.parseXz data).wellFormed <;> simp [hw, hck]
    unfold decompress_xz_file
    simp only [hopen, hx2]
    rfl

/-- Witness for C7 (spec scenario 4): a `disk.xz` whose checksum is invalid
fails the run with the xz decode error, leaving the filesystem unchanged and
invoking no external process. -/
theorem c7_xz_checksum_verification_witness :
    run { oracle0 with parseXz := fun d => ⟨d, true, false⟩ }
        ⟨[], some "disk.xz".data⟩ [(⟨[], some "disk.xz".data⟩, [3])] =
      ([(⟨[], some "disk.xz".data⟩, [3])], [],
       .error (.decodeError "Failed to decompress xz file")) :=
  c7_xz_checksum_verification.2.2 { oracle0 with parseXz := fun d => ⟨d, true, false⟩ }
    ⟨[], some "disk.xz".data⟩ [(⟨[], some "disk.xz".data⟩, [3])] "xz".data [3]
    rfl rfl rfl rfl

/-- C8: the legacy lzma decompressor constructs its reader via
`LzmaReader::new_mem_limit` with a dictionary memory ceiling of exactly
`64 * 1024 = 65536` bytes and no declared uncompressed-size hint; a stream
declaring a larger dictionary makes construction fail, which is fatal to the
run (decode error, filesystem untouched, no external process invoked). -/
theorem c8_lzma_mem_limit :
    (∀ s r, lzmaReaderNewMemLimit s (64 * 1024) none = .ok r →
      r.memLimit = 65536 ∧ r.sizeHint = none ∧ s.dictSize ≤ 65536) ∧
    (∀ s : LzmaStream, s.dictSize > 65536 →
      lzmaReaderNewMemLimit s (64 * 1024) none =
        .error "LZMA dictionary size exceeds memory limit") ∧
    (∀ o p fs e data, extensionOfPath p = some e →
      (⟨e.map Char.toLower⟩ : String) = "lzma" →
      fsLookup fs p = some data → (o.parseLzma data).dictSize > 65536 →
      run o p fs = (fs, [], .error (.decodeError "Failed to create LZMA reader"))) := by
  refine ⟨?_, ?_, ?_⟩
  · intro s r h
    unfold lzmaReaderNewMemLimit at h
    split at h
    · simp at h
    · rename_i hle
      simp only [Except.ok.injEq] at h
      subst h
      exact ⟨by norm_num, rfl, by omega⟩
  · intro s hgt
    unfold lzmaReaderNewMemLimit
    rw [if_pos (by omega)]
  · intro o p fs e data he hx hopen hdict
    apply run_of_dispatch_error he
    rw [hx]
    have hstep : dispatch o p fs "lzma" =
        tagRes false (decompress_lzma_file o.parseLzma o.workDir p fs) := rfl
    rw [hstep]
    have hctor : lzmaReaderNewMemLimit (o.parseLzma data) (64 * 1024) none =
        .error "LZMA dictionary size exceeds memory limit" := by
      unfold lzmaReaderNewMemLimit
      rw [if_pos (by omega)]
    unfold decompress_lzma_file
    simp only [hopen, hctor]
    rfl

/-- Witness for C8: a `disk.lzma` declaring a 100000-byte dictionary fails
reader construction and aborts the run before anything else happens. -/
theorem c8_lzma_mem_limit_witness :
    run { oracle0 with parseLzma := fun d => ⟨d, 100000, true⟩ }
        ⟨[], some "disk.lzma".data⟩ [(⟨[], some "disk.lzma".data⟩, [3])] =
      ([(⟨[], some "disk.lzma".data⟩, [3])], [],
       .error (.decodeError "Failed to create LZMA reader")) :=
  c8_lzma_mem_limit.2.2 { oracle0 with parseLzma := fun d => ⟨d, 100000, true⟩ }
    ⟨[], some "disk.lzma".data⟩ [(⟨[], some "disk.lzma".data⟩, [3])] "lzma".data [3]
    rfl rfl rfl (by norm_num)

/-- Reduction of the run's tail when both external commands succeed. -/
theorem afterDispatch_success (o : Oracles) (fs1 : FS) (b : Bool) (pp : RPath)
    (so se so2 se2 : String)
    (hq : o.qemu = .exited true so se) (hm : o.qm = .exited true so2 se2) :
    afterDispatch o fs1 b pp =
      (if b then
        fsRemove (fsCreate fs1 (vmdiskName o.workDir) o.qcowBytes) (vmdiskName o.workDir)
       else
        fsRemove (fsRemove (fsCreate fs1 (vmdiskName o.workDir) o.qcowBytes)
          (vmdiskName o.workDir)) pp,
       [ExtCall.qemuConvert pp (vmdiskName o.workDir),
        ExtCall.qmImportdisk o.vmId (vmdiskName o.workDir) o.storage], .ok ()) := by
  unfold afterDispatch
  simp only [hq, hm]
  cases b <;> rfl

/-- Reduction of the run's tail when `qemu-img` exits unsuccessfully. -/
theorem afterDispatch_qemu_fail (o : Oracles) (fs1 : FS) (b : Bool) (pp : RPath)
    (so se : String) (hq : o.qemu = .exited false so se) :
    afterDispatch o fs1 b pp =
      (fs1, [ExtCall.qemuConvert pp (vmdiskName o.workDir)],
       .error (.externalError ("qemu-img failed: " ++ se))) := by
  unfold afterDispatch
  simp only [hq]

/-- Reduction of the run's tail when `qm importdisk` exits unsuccessfully. -/
theorem afterDispatch_qm_fail (o : Oracles) (fs1 : FS) (b : Bool) (pp : RPath)
    (so se so2 se2 : String)
    (hq : o.qemu = .exited true so se) (hm : o.qm = .exited false so2 se2) :
    afterDispatch o fs1 b pp =
      (fsCreate fs1 (vmdiskName o.workDir) o.qcowBytes,
       [ExtCall.qemuConvert pp (vmdiskName o.workDir),
        ExtCall.qmImportdisk o.vmId (vmdiskName o.workDir) o.storage],
       .error (.externalError ("qm importdisk failed: " ++ se2))) := by
  unfold afterDispatch
  simp only [hq, hm]

/-- C4: on the success path the temporary qcow2 is always deleted regardless of
format; the decompressed file is deleted exactly when the input was compressed
(`is_image_file = false`), and for raw inputs nothing beyond the qcow2 is
touched at the cleanup step; conversely when external conversion or attach
fails, the filesystem at that point — decompressed file, and for attach
failures the converted qcow2 too — is left as is, with no rollback. -/
theorem c4_cleanup_contract :
    ∀ o p fs e fs1 b pp,
      extensionOfPath p = some e →
      dispatch o p fs ⟨e.map Char.toLower⟩ = (fs1, .ok (b, pp)) →
      (∀ so se so2 se2, o.qemu = .exited true so se → o.qm = .exited true so2 se2 →
        (fsLookup (run o p fs).1 (vmdiskName o.workDir) = none ∧
         (b = false → fsLookup (run o p fs).1 pp = none) ∧
         (b = true → ∀ q, q ≠ vmdiskName o.workDir →
           fsLookup (run o p fs).1 q = fsLookup fs1 q))) ∧
      (∀ so se, o.qemu = .exited false so se → (run o p fs).1 = fs1) ∧
      (∀ so se so2 se2, o.qemu = .exited true so se → o.qm = .exited false so2 se2 →
        ((run o p fs).1 = fsCreate fs1 (vmdiskName o.workDir) o.qcowBytes ∧
         fsLookup (run o p fs).1 (vmdiskName o.workDir) = some o.qcowBytes ∧
         (pp ≠ vmdiskName o.workDir →
           fsLookup (run o p fs).1 pp = fsLookup fs1 pp))) := by
  intro o p fs e fs1 b pp he hd
  have hrun := run_of_dispatch_ok he hd
  refine ⟨?_, ?_, ?_⟩
  · intro so se so2 se2 hq hm
    rw [hrun, afterDispatch_success o fs1 b pp so se so2 se2 hq hm]
    cases b
    · rw [if_neg Bool.false_ne_true]
      refine ⟨?_, fun _ => fsLookup_fsRemove_self _ _, fun hbt => absurd hbt (by simp)⟩
      by_cases hpv : vmdiskName o.workDir = pp
      · rw [← hpv]
        exact fsLookup_fsRemove_self _ _
      · rw [fsLookup_fsRemove_ne _ hpv]
        exact fsLookup_fsRemove_self _ _
    · rw [if_pos rfl]
      refine ⟨fsLookup_fsRemove_self _ _, fun hbf => absurd hbf (by simp), ?_⟩
      intro _ q hq2
      rw [fsLookup_fsRemove_ne _ hq2, fsLookup_fsCreate_ne _ _ hq2]
  · intro so se hq
    rw [hrun, afterDispatch_qemu_fail o fs1 b pp so se hq]
  · intro so se so2 se2 hq hm
    rw [hrun, afterDispatch_qm_fail o fs1 b pp so se so2 se2 hq hm]
    exact ⟨rfl, fsLookup_fsCreate_self _ _ _,
      fun hne => fsLookup_fsCreate_ne _ _ hne⟩

/-- Witness for C4: a successful gz run deletes the temporary qcow2. -/
theorem c4_cleanup_contract_witness :
    fsLookup (run oracle0 ⟨[], some "disk.img.gz".data⟩
        [(⟨[], some "disk.img.gz".data⟩, [1])]).1 (vmdiskName oracle0.workDir) = none :=
  ((c4_cleanup_contract oracle0 ⟨[], some "disk.img.gz".data⟩
      [(⟨[], some "disk.img.gz".data⟩, [1])] "gz".data
      (fsCreate [(⟨[], some "disk.img.gz".data⟩, [1])] ⟨[], some "disk.img".data⟩ [1])
      false ⟨[], some "disk.img".data⟩ rfl rfl).1 "" "" "" "" rfl rfl).1

/-! ### Shared lemmas: the stem-derivation PathError branch -/

theorem decompress_bz2_pathError_stem_none
    (dec : List Nat → Except String (List Nat)) (wd : List (List Char))
    (p : RPath) (fs : FS) (m : String)
    (h : (decompress_bz2_file dec wd p fs).2 = .error (.pathError m)) :
    fileStemOfPath p = none := by
  unfold decompress_bz2_file at h
  split at h
  · simp at h
  · split at h
    · simp at h
    · split at h
      · rename_i hstem
        exact hstem
      · simp at h

theorem decompress_gz_pathError_stem_none
    (dec : List Nat → Except String (List Nat)) (wd : List (List Char))
    (p : RPath) (fs : FS) (m : String)
    (h : (decompress_gz_file dec wd p fs).2 = .error (.pathError m)) :
    fileStemOfPath p = none := by
  unfold decompress_gz_file at h
  split at h
  · simp at h
  · split at h
    · simp at h
    · split at h
      · rename_i hstem
        exact hstem
      · simp at h

theorem decompress_xz_pathError_stem_none (parseXz : List Nat → XzStream)
    (wd : List (List Char)) (p : RPath) (fs : FS) (m : String)
    (h : (decompress_xz_file parseXz wd p fs).2 = .error (.pathError m)) :
    fileStemOfPath p = none := by
  unfold decompress_xz_file at h
  split at h
  · simp at h
  · split at h
    · simp at h
    · split at h
      · rename_i hstem
        exact hstem
      · simp at h

theorem decompress_lzma_pathError_stem_none (parseLzma : List Nat → LzmaStream)
    (wd : List (List Char)) (p : RPath) (fs : FS) (m : String)
    (h : (decompress_lzma_file parseLzma wd p fs).2 = .error (.pathError m)) :
    fileStemOfPath p = none := by
  unfold decompress_lzma_file at h
  split at h
  · simp at h
  · split at h
    · simp at h
    · split at h
      · simp at h
      · split at h
        · rename_i hstem
          exact hstem
        · simp at h

theorem decompress_zip_pathError_stem_none
    (pz : List Nat → Except String (List ZipEntry)) (wd : List (List Char))
    (p : RPath) (fs : FS) (m : String)
    (h : (decompress_zip_file pz wd p fs).2 = .error (.pathError m)) :
    fileStemOfPath p = none := by
  unfold decompress_zip_file at h
  split at h
  · simp at h
  · split at h
    · simp at h
    · split at h
      · simp at h
      · split at h
        · rename_i hstem
          exact hstem
        · split at h
          · simp at h
          · simp at h

theorem dispatch_pathError_stem_none (o : Oracles) (p : RPath) (fs fs1 : FS)
    (ext : String) (m : String)
    (h : dispatch o p fs ext = (fs1, .error (.pathError m))) :
    fileStemOfPath p = none := by
  unfold dispatch at h
  split_ifs at h
  · exact decompress_bz2_pathError_stem_none _ _ _ _ _ (tagRes_snd_error.mp (by rw [h]))
  · exact decompress_gz_pathError_stem_none _ _ _ _ _ (tagRes_snd_error.mp (by rw [h]))
  · exact decompress_lzma_pathError_stem_none _ _ _ _ _ (tagRes_snd_error.mp (by rw [h]))
  · exact decompress_xz_pathError_stem_none _ _ _ _ _ (tagRes_snd_error.mp (by rw [h]))
  · exact decompress_zip_pathError_stem_none _ _ _ _ _ (tagRes_snd_error.mp (by rw [h]))
  · simp at h
  · simp at h

theorem afterDispatch_no_pathError (o : Oracles) (fs1 : FS) (b : Bool)
    (pp : RPath) (m : String) :
    (afterDispatch o fs1 b pp).2.2 ≠ .error (.pathError m) := by
  unfold afterDispatch
  cases o.qemu with
  | spawnFail msg => simp
  | exited s so se =>
    cases s
    · simp
    · cases o.qm with
      | spawnFail msg => simp
      | exited s2 a bb =>
        cases s2
        · simp
        · cases b <;> simp

/-- C10: the stem-derivation PathError branch of every decompressor is
unreachable in an actual run: a file name with an extension always has a
non-empty file stem, and `run` — which only invokes a decompressor after
extracting an extension — can therefore never return a PathError. -/
theorem c10_stem_error_unreachable :
    (∀ f e, extensionName f = some e → ∃ s, fileStemName f = some s ∧ s ≠ []) ∧
    (∀ o p fs m, (run o p fs).2.2 ≠ .error (.pathError m)) := by
  refine ⟨fun f e h => fileStemName_of_extensionName h, ?_⟩
  intro o p fs m hcontra
  cases he : extensionOfPath p with
  | none =>
    rw [run_of_extension_none he] at hcontra
    simp at hcontra
  | some e =>
    obtain ⟨s, hs, -⟩ := fileStemOfPath_of_extensionOfPath he
    cases hd : dispatch o p fs ⟨e.map Char.toLower⟩ with
    | mk fs1 res =>
      cases res with
      | error err =>
        rw [run_of_dispatch_error he hd] at hcontra
        simp only [Except.error.injEq] at hcontra
        subst hcontra
        rw [dispatch_pathError_stem_none o p fs fs1 _ m hd] at hs
        exact Option.noConfusion hs
      | ok pr =>
        obtain ⟨b, pp⟩ := pr
        rw [run_of_dispatch_ok he hd] at hcontra
        exact afterDispatch_no_pathError o fs1 b pp m hcontra

/-- Witness for C10: `disk.img.gz` has extension `gz` and the non-empty stem
`disk.img`; a concrete raw-image run never yields a PathError. -/
theorem c10_stem_error_unreachable_witness :
    (∃ s, fileStemName "disk.img.gz".data = some s ∧ s ≠ []) ∧
    (run oracle0 ⟨[], some "disk.img".data⟩ []).2.2 ≠ .error (.pathError "boom") :=
  ⟨c10_stem_error_unreachable.1 "disk.img.gz".data "gz".data rfl,
   c10_stem_error_unreachable.2 oracle0 ⟨[], some "disk.img".data⟩ [] "boom"⟩

end Img2Kvm
